import Mathlib

/-!
Shallow embedding of `scripts/refresh_metric_views.py`.

The script is a single-module CLI utility over a remote workspace client.
We embed its pure logic directly and model the remote calls as explicit
parameters:

* a statement-execution outcome is `Except String StatementResult`
  (an `Except.error msg` models a Python exception with message `msg`);
* the warehouse list call is `Except String (List Warehouse)`;
* `start_update` is `String → Except String Unit`;
* environment variables are `Option String` (`none` = unset);
* a result row is represented by its `str(row)` stringification, since the
  script only ever pattern-matches on that stringified text;
* `sys.exit(n)` / normal return are modelled by an explicit exit code, and
  the prints the claims mention by boolean flags in the result record.

Python truthiness of strings (`if warehouse_id:`, `if pid:`) is modelled
explicitly: `none` and `some ""` are both falsy.
-/

namespace RefreshMetricViews

/-- Characters matched by the regex character class `[a-f0-9-]` used in
`re.search(r'pipelines/([a-f0-9-]+)', row_str)`. -/
def isHexHyphen (c : Char) : Bool :=
  (('a' ≤ c) && (c ≤ 'f')) || (('0' ≤ c) && (c ≤ '9')) || (c = '-')

/-- Characters matched by the regex character class `[a-f0-9]` used in
`re.search(r'/warehouses/([a-f0-9]+)', http_path)`. -/
def isHexChar (c : Char) : Bool :=
  (('a' ≤ c) && (c ≤ 'f')) || (('0' ≤ c) && (c ≤ '9'))

/-- Match a literal character sequence at the head of a string; on success
return the remainder after the literal. -/
def matchLit : List Char → List Char → Option (List Char)
  | [], s => some s
  | _ :: _, [] => none
  | p :: ps, c :: cs => if c = p then matchLit ps cs else none

/-- Python `needle in hay` on character lists: the literal occurs at some
position. -/
def containsAt : List Char → List Char → Bool
  | needle, [] => (matchLit needle []).isSome
  | needle, c :: cs => (matchLit needle (c :: cs)).isSome || containsAt needle cs

/-- Python `needle in hay` on strings. -/
def pyContains (needle hay : String) : Bool :=
  containsAt needle.data hay.data

/-- `re.search(r'LIT([cls]+)', s)` for a literal `lit` followed by a
one-or-more character-class group: scan start positions left to right; at
the first position where the literal matches and at least one class
character follows, return the maximal (greedy) class-character run after
the literal, i.e. `match.group(1)`. -/
def reSearchTok (lit : List Char) (cls : Char → Bool) : List Char → Option String
  | [] => none
  | c :: cs =>
    match matchLit lit (c :: cs) with
    | some rest =>
      let tok := rest.takeWhile cls
      if tok.isEmpty then reSearchTok lit cls cs else some (String.mk tok)
    | none => reSearchTok lit cls cs

/-- The literal part of the pipeline-id regex. -/
def pipelinesLit : List Char := "pipelines/".data

/-- The literal part of the warehouse-id regex. -/
def warehousesLit : List Char := "/warehouses/".data

/-- `re.search(r'pipelines/([a-f0-9-]+)', row_str)`, returning `group(1)`. -/
def reSearchPipeline (s : List Char) : Option String :=
  reSearchTok pipelinesLit isHexHyphen s

/-- `re.search(r'/warehouses/([a-f0-9]+)', http_path)`, returning `group(1)`. -/
def reSearchWarehouses (s : List Char) : Option String :=
  reSearchTok warehousesLit isHexChar s

/-- Specification-level description of one regex attempt: at position `i`
of `s`, the literal must occur, followed by a non-empty token of class
characters; the token is the maximal such run. -/
def specTokenAt (lit : List Char) (cls : Char → Bool) (s : List Char) (i : Nat) :
    Option String :=
  match matchLit lit (s.drop i) with
  | some rest =>
    let tok := rest.takeWhile cls
    if tok.isEmpty then none else some (String.mk tok)
  | none => none

/-- Specification-level search: the token at the least matching position. -/
def specSearchTok (lit : List Char) (cls : Char → Bool) (s : List Char) :
    Option String :=
  (List.range (s.length + 1)).findSome? (specTokenAt lit cls s)

theorem findSome?_map_succ {α : Type} (f : Nat → Option α) (l : List Nat) :
    (l.map Nat.succ).findSome? f = l.findSome? (fun i => f (i + 1)) := by
  induction l with
  | nil => rfl
  | cons a l ih =>
    simp only [List.map_cons, List.findSome?]
    cases f (a + 1) <;> simp [ih]

theorem specTokenAt_cons (lit : List Char) (cls : Char → Bool) (c : Char)
    (cs : List Char) (i : Nat) :
    specTokenAt lit cls (c :: cs) (i + 1) = specTokenAt lit cls cs i := by
  simp [specTokenAt, List.drop_succ_cons]

/-- The implementation-side regex search computes exactly the
specification-side "token at the least matching position". -/
theorem reSearchTok_eq_spec (lit : List Char) (cls : Char → Bool) :
    ∀ s : List Char, reSearchTok lit cls s = specSearchTok lit cls s := by
  intro s
  induction s with
  | nil =>
    simp only [reSearchTok, specSearchTok, List.length_nil, List.range_succ,
      List.range_zero, List.nil_append, List.findSome?, specTokenAt,
      List.drop_nil]
    cases h : matchLit lit [] with
    | none => simp
    | some rest =>
      cases lit with
      | nil =>
        simp only [matchLit, Option.some.injEq] at h
        subst h
        simp
      | cons p ps => simp [matchLit] at h
  | cons c cs ih =>
    have hrange : List.range (cs.length + 1 + 1) =
        0 :: (List.range (cs.length + 1)).map Nat.succ :=
      List.range_succ_eq_map (cs.length + 1)
    have hfun : (fun i => specTokenAt lit cls (c :: cs) (i + 1)) =
        specTokenAt lit cls cs := by
      funext i
      exact specTokenAt_cons lit cls c cs i
    have hspec : specSearchTok lit cls (c :: cs) =
        match specTokenAt lit cls (c :: cs) 0 with
        | some t => some t
        | none => specSearchTok lit cls cs := by
      simp only [specSearchTok, List.length_cons, hrange, List.findSome?,
        findSome?_map_succ, hfun]
      cases specTokenAt lit cls (c :: cs) 0 <;> rfl
    rw [hspec]
    simp only [specTokenAt, List.drop_zero]
    simp only [reSearchTok]
    cases hm : matchLit lit (c :: cs) with
    | none => simpa using ih
    | some rest =>
      by_cases he : (rest.takeWhile cls).isEmpty
      · simpa [he] using ih
      · simp [he]

/-- If the literal does not occur in `s` at all, the regex search fails. -/
theorem reSearchTok_eq_none_of_not_contains (lit : List Char) (cls : Char → Bool) :
    ∀ s : List Char, containsAt lit s = false → reSearchTok lit cls s = none := by
  intro s
  induction s with
  | nil =>
    intro h
    rfl
  | cons c cs ih =>
    intro h
    simp only [containsAt, Bool.or_eq_false_iff] at h
    simp only [reSearchTok]
    cases hm : matchLit lit (c :: cs) with
    | some rest =>
      rw [hm] at h
      simp at h
    | none => exact ih h.2

/-- A successful regex search never yields the empty string: the `+`
quantifier requires at least one class character in `group(1)`. -/
theorem reSearchTok_ne_empty (lit : List Char) (cls : Char → Bool) :
    ∀ s t, reSearchTok lit cls s = some t → t ≠ "" := by
  intro s
  induction s with
  | nil =>
    intro t h
    simp [reSearchTok] at h
  | cons c cs ih =>
    intro t h
    simp only [reSearchTok] at h
    cases hm : matchLit lit (c :: cs) with
    | none =>
      rw [hm] at h
      exact ih t h
    | some rest =>
      rw [hm] at h
      by_cases he : (rest.takeWhile cls).isEmpty
      · simp only [he, if_true] at h
        exact ih t h
      · simp only [he, if_false] at h
        cases h
        intro habs
        have hdata : rest.takeWhile cls = [] := congrArg String.data habs
        rw [List.isEmpty_iff] at he
        exact he hdata

/-! ## Statement-execution results and `discover_pipeline` -/

/-- `result.result` field of an `execute_statement` response: `data_array`
is `None` or a list of rows; each row is represented by its `str(row)`
stringification. -/
structure ResultData where
  data_array : Option (List String)
deriving DecidableEq

/-- An `execute_statement` response: the `result` field may be `None`. -/
structure StatementResult where
  result : Option ResultData
deriving DecidableEq

/-- The rows the loop in `discover_pipeline` iterates over.  The guard
`if result.result and result.result.data_array:` means a missing `result`,
a missing `data_array`, or an empty `data_array` all behave as no rows. -/
def rowsOf (r : StatementResult) : List String :=
  match r.result with
  | some rd =>
    match rd.data_array with
    | some rows => rows
    | none => []
  | none => []

/-- The row loop of `discover_pipeline`: for each row in order, if
`"pipelines/" in row_str` then `re.search(r'pipelines/([a-f0-9-]+)', row_str)`;
on a regex match return `group(1)`, otherwise continue with later rows. -/
def discover_scan : List String → Option String
  | [] => none
  | row :: rest =>
    if pyContains "pipelines/" row then
      match reSearchPipeline row.data with
      | some pid => some pid
      | none => discover_scan rest
    else discover_scan rest

/-- Specification-side description of the scan: the first pipeline
identifier obtained by scanning the rows in row order, matching
`pipelines/` followed by a non-empty token of `[a-f0-9-]` characters. -/
def specFirstPipelineId (rows : List String) : Option String :=
  rows.findSome? (fun r => specSearchTok pipelinesLit isHexHyphen r.data)

/-- The SQL statement `discover_pipeline` executes. -/
def describeStatement (metric_view_name : String) : String :=
  "DESCRIBE EXTENDED " ++ metric_view_name

/-- `discover_pipeline`.  The whole body — including the call to
`_get_warehouse_id` made while building the `execute_statement` arguments —
sits inside one `try:` whose `except Exception` handler returns `None`.
`whResult` is the outcome of the `_get_warehouse_id(client)` call and
`exec` the outcome of `execute_statement` for a given warehouse id and
statement text; `Except.error` models a raised exception.  The function
returns `Except.ok` on every input because the handler catches every
exception raised inside the `try` block. -/
def discover_pipeline (metric_view_name : String)
    (whResult : Except String String)
    (exec : String → String → Except String StatementResult) :
    Except String (Option String) :=
  let body : Except String (Option String) :=
    match whResult with
    | Except.error e => Except.error e
    | Except.ok wid =>
      match exec wid (describeStatement metric_view_name) with
      | Except.error e => Except.error e
      | Except.ok result => Except.ok (discover_scan (rowsOf result))
  match body with
  | Except.error _ => Except.ok none
  | Except.ok v => Except.ok v

/-- The `Option`-level value `discover_pipeline` wraps in `Except.ok`. -/
def discover_opt (metric_view_name : String)
    (whResult : Except String String)
    (exec : String → String → Except String StatementResult) : Option String :=
  match whResult with
  | Except.error _ => none
  | Except.ok wid =>
    match exec wid (describeStatement metric_view_name) with
    | Except.error _ => none
    | Except.ok result => discover_scan (rowsOf result)

theorem discover_pipeline_eq_ok (n : String) (whResult : Except String String)
    (exec : String → String → Except String StatementResult) :
    discover_pipeline n whResult exec = Except.ok (discover_opt n whResult exec) := by
  cases whResult with
  | error e => rfl
  | ok wid =>
    simp only [discover_pipeline, discover_opt]
    cases exec wid (describeStatement n) <;> rfl

theorem discover_scan_eq_spec :
    ∀ rows : List String, discover_scan rows = specFirstPipelineId rows := by
  intro rows
  induction rows with
  | nil => rfl
  | cons row rest ih =>
    simp only [discover_scan, specFirstPipelineId, List.findSome?]
    by_cases hc : pyContains "pipelines/" row
    · rw [if_pos hc]
      rw [show reSearchPipeline row.data =
          specSearchTok pipelinesLit isHexHyphen row.data from
        reSearchTok_eq_spec pipelinesLit isHexHyphen row.data]
      cases specSearchTok pipelinesLit isHexHyphen row.data with
      | some pid => rfl
      | none => simpa [specFirstPipelineId] using ih
    · rw [if_neg hc]
      have hnone : reSearchPipeline row.data = none :=
        reSearchTok_eq_none_of_not_contains pipelinesLit isHexHyphen row.data
          (by simpa [pyContains, pipelinesLit] using hc)
      have hspec : specSearchTok pipelinesLit isHexHyphen row.data = none := by
        rw [← reSearchTok_eq_spec]
        exact hnone
      rw [hspec]
      simpa [specFirstPipelineId] using ih

/-! ## Warehouse resolution -/

/-- One element of `client.warehouses.list()`: an `id` and an optional
`state` whose `.value` is a state name string (`none` models a `None`
state object, which is falsy in `wh.state and wh.state.value == "RUNNING"`). -/
structure Warehouse where
  id : String
  state : Option String
deriving DecidableEq

/-- The per-warehouse test `wh.state and wh.state.value == "RUNNING"`. -/
def isRunning (wh : Warehouse) : Bool :=
  match wh.state with
  | some v => v = "RUNNING"
  | none => false

/-- Python truthiness of `os.environ.get(...)`: `None` and the empty
string are both falsy. -/
def envTruthy : Option String → Option String
  | none => none
  | some s => if s = "" then none else some s

/-- The message of the `ValueError` raised when no warehouse can be
determined. -/
def resolutionErrorMsg : String :=
  "Could not determine warehouse ID. Set DATABRICKS_WAREHOUSE_ID or DATABRICKS_HTTP_PATH environment variable."

/-- The `try:` block over `client.warehouses.list()`: first warehouse in
`RUNNING` state, else the first warehouse of a non-empty list; a raised
exception (`except Exception: pass`) and an empty list both yield nothing,
falling through to the `ValueError`. -/
def warehouseFromList : Except String (List Warehouse) → Option String
  | Except.error _ => none
  | Except.ok whs =>
    match whs.find? isRunning with
    | some wh => some wh.id
    | none =>
      match whs with
      | [] => none
      | wh :: _ => some wh.id

/-- `_get_warehouse_id`, with the two environment variables and the
warehouse-list outcome passed explicitly:
1. `DATABRICKS_WAREHOUSE_ID` if truthy;
2. else `re.search(r'/warehouses/([a-f0-9]+)', DATABRICKS_HTTP_PATH)` with
   `os.environ.get("DATABRICKS_HTTP_PATH", "")` defaulting to `""`;
3. else the warehouse list (first running, else first);
4. else `raise ValueError(...)`. -/
def _get_warehouse_id (envWarehouseId envHttpPath : Option String)
    (listResult : Except String (List Warehouse)) : Except String String :=
  match envTruthy envWarehouseId with
  | some w => Except.ok w
  | none =>
    match reSearchWarehouses ((envHttpPath.getD "").data) with
    | some wid => Except.ok wid
    | none =>
      match warehouseFromList listResult with
      | some wid => Except.ok wid
      | none => Except.error resolutionErrorMsg

/-! ## Pipeline refresh and command dispatch -/

/-- The per-item status line printed by `refresh_pipelines`: a checkmark
line on success, an error line with the exception message on failure. -/
inductive RefreshReport where
  | ok (pipeline_id : String)
  | err (pipeline_id : String) (msg : String)
deriving DecidableEq

/-- The pipeline id a report line is about. -/
def reportId : RefreshReport → String
  | RefreshReport.ok p => p
  | RefreshReport.err p _ => p

/-- `refresh_pipelines`: for each id in order call
`client.pipelines.start_update(pipeline_id)` inside a per-item
`try/except`; record a success or error line and continue with the next
id either way.  `su` is the outcome of `start_update` per pipeline id. -/
def refresh_pipelines (su : String → Except String Unit) :
    List String → List RefreshReport
  | [] => []
  | p :: rest =>
    match su p with
    | Except.ok _ => RefreshReport.ok p :: refresh_pipelines su rest
    | Except.error m => RefreshReport.err p m :: refresh_pipelines su rest

/-- Observable outcome of one `main()` run: which messages were printed,
which views were passed to discovery, the per-item refresh reports, and
the process exit code (0 when `main` returns without `sys.exit`). -/
structure MainResult where
  printed_usage : Bool := false
  printed_missing_arg : Bool := false
  printed_no_pipelines : Bool := false
  discover_calls : List String := []
  refresh_reports : List RefreshReport := []
  exitCode : Nat := 0
deriving DecidableEq

/-- The `--discover` loop: `for view_name in sys.argv[2:]:
discover_pipeline(view_name)`.  An exception escaping `discover_pipeline`
would propagate and abort the loop (modelled by `Except.error`). -/
def run_discover (d : String → Except String (Option String)) :
    List String → Except String Unit
  | [] => Except.ok ()
  | v :: vs =>
    match d v with
    | Except.error e => Except.error e
    | Except.ok _ => run_discover d vs

/-- The `--refresh` collection loop: discover each view in order and
append `pid` when `if pid:` is truthy (not `None` and not empty).  An
exception escaping `discover_pipeline` would abort the loop. -/
def collect_pipeline_ids (d : String → Except String (Option String)) :
    List String → Except String (List String)
  | [] => Except.ok []
  | v :: vs =>
    match d v with
    | Except.error e => Except.error e
    | Except.ok pid =>
      match collect_pipeline_ids d vs with
      | Except.error e => Except.error e
      | Except.ok rest =>
        match pid with
        | some p => if p = "" then Except.ok rest else Except.ok (p :: rest)
        | none => Except.ok rest

/-- `main()`, over `args = sys.argv[1:]`.  `d view` is the outcome of
`discover_pipeline(view)` for that run's environment and `su` the
`start_update` outcomes.  `len(sys.argv) < 2` is `args = []`;
`len(sys.argv) < 3` is a lone flag; `sys.argv[2:]` is the tail. -/
def main (d : String → Except String (Option String))
    (su : String → Except String Unit) :
    List String → Except String MainResult
  | [] => Except.ok { printed_usage := true, exitCode := 1 }
  | mode :: rest =>
    if mode = "--discover" then
      match rest with
      | [] => Except.ok { printed_missing_arg := true, exitCode := 1 }
      | _ :: _ =>
        match run_discover d rest with
        | Except.error e => Except.error e
        | Except.ok _ => Except.ok { discover_calls := rest }
    else if mode = "--refresh" then
      match rest with
      | [] => Except.ok { printed_missing_arg := true, exitCode := 1 }
      | _ :: _ =>
        match collect_pipeline_ids d rest with
        | Except.error e => Except.error e
        | Except.ok pids =>
          if pids.isEmpty then
            Except.ok { discover_calls := rest, printed_no_pipelines := true,
                        exitCode := 1 }
          else
            Except.ok { discover_calls := rest,
                        refresh_reports := refresh_pipelines su pids }
    else
      Except.ok { refresh_reports := refresh_pipelines su (mode :: rest) }

/-! ## Helper lemmas -/

theorem discover_scan_ne_empty :
    ∀ (rows : List String) (p : String), discover_scan rows = some p → p ≠ "" := by
  intro rows
  induction rows with
  | nil =>
    intro p h
    simp [discover_scan] at h
  | cons row rest ih =>
    intro p h
    simp only [discover_scan] at h
    by_cases hc : pyContains "pipelines/" row
    · rw [if_pos hc] at h
      cases hm : reSearchPipeline row.data with
      | some pid =>
        rw [hm] at h
        cases h
        exact reSearchTok_ne_empty pipelinesLit isHexHyphen row.data p hm
      | none =>
        rw [hm] at h
        exact ih p h
    · rw [if_neg hc] at h
      exact ih p h

theorem discover_opt_ne_empty (n : String) (whResult : Except String String)
    (exec : String → String → Except String StatementResult) (p : String) :
    discover_opt n whResult exec = some p → p ≠ "" := by
  intro h
  cases whResult with
  | error e => simp [discover_opt] at h
  | ok wid =>
    simp only [discover_opt] at h
    cases hx : exec wid (describeStatement n) with
    | error e => rw [hx] at h; simp at h
    | ok res =>
      rw [hx] at h
      exact discover_scan_ne_empty (rowsOf res) p h

/-- A discovery function that never raises and never yields the empty
string makes the `--refresh` collection loop a `filterMap`. -/
theorem collect_ok (g : String → Option String)
    (hg : ∀ u p, g u = some p → p ≠ "") :
    ∀ views : List String,
      collect_pipeline_ids (fun u => Except.ok (g u)) views =
        Except.ok (views.filterMap g) := by
  intro views
  induction views with
  | nil => rfl
  | cons v vs ih =>
    simp only [collect_pipeline_ids, ih, List.filterMap_cons]
    cases hd : g v with
    | none => rfl
    | some p =>
      have hp : p ≠ "" := hg v p hd
      simp [hp]

/-- With the real `discover_pipeline` (which never lets an exception
escape and never yields an empty id), the `--refresh` collection loop
computes exactly the list of non-`None` discovery results, in view order. -/
theorem collect_eq_filterMap (whRes : String → Except String String)
    (execFor : String → String → String → Except String StatementResult) :
    ∀ views : List String,
      collect_pipeline_ids
          (fun u => discover_pipeline u (whRes u) (execFor u)) views =
        Except.ok (views.filterMap (fun u => discover_opt u (whRes u) (execFor u))) := by
  intro views
  have hfun : (fun u => discover_pipeline u (whRes u) (execFor u)) =
      (fun u => Except.ok (discover_opt u (whRes u) (execFor u))) := by
    funext u
    exact discover_pipeline_eq_ok u (whRes u) (execFor u)
  rw [hfun]
  exact collect_ok _ (fun u p => discover_opt_ne_empty u (whRes u) (execFor u) p) views

/-! ## Claims -/

/-- Claim C1: for every `execute_statement` result, `discover_pipeline`
returns the first pipeline identifier obtained by scanning the result's
rows in row order, stringifying each row and matching the substring
`pipelines/` followed by a non-empty token of `[a-f0-9-]` characters; and
it returns `None` when the result carries no rows or no row yields such a
match. -/
theorem c1_discover_returns_first_pipeline_id :
    (∀ (name wid : String) (res : StatementResult),
      discover_pipeline name (Except.ok wid) (fun _ _ => Except.ok res) =
        Except.ok (specFirstPipelineId (rowsOf res)))
    ∧ (∀ (name wid : String) (res : StatementResult),
        rowsOf res = [] →
        discover_pipeline name (Except.ok wid) (fun _ _ => Except.ok res) =
          Except.ok none)
    ∧ (∀ (name wid : String) (res : StatementResult),
        specFirstPipelineId (rowsOf res) = none →
        discover_pipeline name (Except.ok wid) (fun _ _ => Except.ok res) =
          Except.ok none) := by
  have hbase : ∀ (name wid : String) (res : StatementResult),
      discover_pipeline name (Except.ok wid) (fun _ _ => Except.ok res) =
        Except.ok (specFirstPipelineId (rowsOf res)) := by
    intro name wid res
    simp only [discover_pipeline]
    rw [discover_scan_eq_spec]
  refine ⟨hbase, ?_, ?_⟩
  · intro name wid res h
    rw [hbase, h]
    rfl
  · intro name wid res h
    rw [hbase, h]

theorem c1_witness :
    discover_pipeline "main.analytics.mv_order_metrics" (Except.ok "wh1")
        (fun _ _ => Except.ok ⟨some ⟨some
          ["['Refresh information', 'https://host/pipelines/3f9a7b2c-1111-2222-3333-444455556666?o=1']"]⟩⟩) =
      Except.ok (specFirstPipelineId (rowsOf ⟨some ⟨some
          ["['Refresh information', 'https://host/pipelines/3f9a7b2c-1111-2222-3333-444455556666?o=1']"]⟩⟩))
    ∧ discover_pipeline "main.analytics.mv_order_metrics" (Except.ok "wh1")
        (fun _ _ => Except.ok ⟨some ⟨none⟩⟩) = Except.ok none :=
  ⟨c1_discover_returns_first_pipeline_id.1 "main.analytics.mv_order_metrics" "wh1" _,
   c1_discover_returns_first_pipeline_id.2.1 "main.analytics.mv_order_metrics" "wh1"
     ⟨some ⟨none⟩⟩ rfl⟩

/-- Claim C2, counterexample: with `DATABRICKS_WAREHOUSE_ID` set to the
empty string, the claim's branch (1) would return that value without
consulting anything else, but `_get_warehouse_id` falls through (the
Python truthiness test `if warehouse_id:` fails) and resolves from
`DATABRICKS_HTTP_PATH` instead, returning `"abc123" ≠ ""`. -/
theorem c2_counterexample :
    _get_warehouse_id (some "") (some "/sql/1.0/warehouses/abc123")
        (Except.error "list call not attempted") = Except.ok "abc123"
    ∧ Except.ok "abc123" ≠
        (Except.ok "" : Except String String) := by
  constructor
  · rfl
  · simp

/-- Claim C2 (amended: branch (1) fires only when `DATABRICKS_WAREHOUSE_ID`
is set to a non-empty string; an empty value is treated as unset):
resolution order is (1) the non-empty environment override, returned
without listing warehouses; (2) the id extracted by
`/warehouses/([a-f0-9]+)` from `DATABRICKS_HTTP_PATH`; (3) from the listed
warehouses, the first whose state is `RUNNING`, or, if none is running,
the first warehouse in the list regardless of state. -/
theorem c2_amended_resolution_order :
    (∀ (w : String) (envH : Option String) (lr : Except String (List Warehouse)),
      w ≠ "" → _get_warehouse_id (some w) envH lr = Except.ok w)
    ∧ (∀ (envW envH : Option String) (lr : Except String (List Warehouse)) (wid : String),
        envTruthy envW = none →
        reSearchWarehouses ((envH.getD "").data) = some wid →
        _get_warehouse_id envW envH lr = Except.ok wid)
    ∧ (∀ (envW envH : Option String) (whs : List Warehouse) (wh : Warehouse),
        envTruthy envW = none →
        reSearchWarehouses ((envH.getD "").data) = none →
        whs.find? isRunning = some wh →
        _get_warehouse_id envW envH (Except.ok whs) = Except.ok wh.id)
    ∧ (∀ (envW envH : Option String) (wh : Warehouse) (rest : List Warehouse),
        envTruthy envW = none →
        reSearchWarehouses ((envH.getD "").data) = none →
        (wh :: rest).find? isRunning = none →
        _get_warehouse_id envW envH (Except.ok (wh :: rest)) = Except.ok wh.id) := by
  refine ⟨?_, ?_, ?_, ?_⟩
  · intro w envH lr hw
    simp [_get_warehouse_id, envTruthy, hw]
  · intro envW envH lr wid h1 h2
    simp [_get_warehouse_id, h1, h2]
  · intro envW envH whs wh h1 h2 hf
    simp [_get_warehouse_id, h1, h2, warehouseFromList, hf]
  · intro envW envH wh rest h1 h2 hf
    simp [_get_warehouse_id, h1, h2, warehouseFromList, hf]

theorem c2_amended_witness :
    _get_warehouse_id (some "abc123") (some "/sql/1.0/warehouses/ffff")
        (Except.error "not consulted") = Except.ok "abc123"
    ∧ _get_warehouse_id none (some "/sql/1.0/warehouses/abc123")
        (Except.error "not consulted") = Except.ok "abc123"
    ∧ _get_warehouse_id none none
        (Except.ok [⟨"w1", some "STOPPED"⟩, ⟨"w2", some "RUNNING"⟩]) =
        Except.ok "w2"
    ∧ _get_warehouse_id none none
        (Except.ok [⟨"w1", some "STOPPED"⟩]) = Except.ok "w1" :=
  ⟨c2_amended_resolution_order.1 "abc123" (some "/sql/1.0/warehouses/ffff")
      (Except.error "not consulted") (by decide),
   c2_amended_resolution_order.2.1 none (some "/sql/1.0/warehouses/abc123")
      (Except.error "not consulted") "abc123" rfl rfl,
   c2_amended_resolution_order.2.2.1 none none
      [⟨"w1", some "STOPPED"⟩, ⟨"w2", some "RUNNING"⟩]
      ⟨"w2", some "RUNNING"⟩ rfl rfl (by decide),
   c2_amended_resolution_order.2.2.2 none none ⟨"w1", some "STOPPED"⟩ []
      rfl rfl (by decide)⟩

/-- Claim C3, counterexample: a warehouse-resolution failure does not
propagate out of `discover_pipeline`.  The `_get_warehouse_id` call sits
inside the `try:` block of `discover_pipeline`, so its `ValueError` is
caught by the blanket `except Exception` handler and discovery returns
`None` instead of letting the exception escape. -/
theorem c3_counterexample :
    discover_pipeline "main.analytics.mv_order_metrics"
        (Except.error resolutionErrorMsg)
        (fun _ _ => Except.error "execute_statement never reached") =
      Except.ok none
    ∧ discover_pipeline "main.analytics.mv_order_metrics"
        (Except.error resolutionErrorMsg)
        (fun _ _ => Except.error "execute_statement never reached") ≠
      Except.error resolutionErrorMsg := by
  constructor
  · rfl
  · intro h
    cases h

/-- Claim C3 (amended: the resolution error is caught inside discovery,
not propagated): `_get_warehouse_id` is called inside `discover_pipeline`'s
`try:` block, so a warehouse-resolution exception is caught by the same
`except Exception` handler as remote-call failures and treated as "no
pipeline found"; during a multi-view `--discover` or `--refresh` batch the
loop therefore continues with the remaining views. -/
theorem c3_amended_resolution_error_caught :
    (∀ (name m : String)
        (exec : String → String → Except String StatementResult),
      discover_pipeline name (Except.error m) exec = Except.ok none)
    ∧ (∀ (whRes : String → Except String String)
        (execFor : String → String → String → Except String StatementResult)
        (v : String) (vs : List String) (m : String),
        whRes v = Except.error m →
        collect_pipeline_ids
            (fun u => discover_pipeline u (whRes u) (execFor u)) (v :: vs) =
          collect_pipeline_ids
            (fun u => discover_pipeline u (whRes u) (execFor u)) vs)
    ∧ (∀ (whRes : String → Except String String)
        (execFor : String → String → String → Except String StatementResult)
        (v : String) (vs : List String) (m : String),
        whRes v = Except.error m →
        run_discover
            (fun u => discover_pipeline u (whRes u) (execFor u)) (v :: vs) =
          run_discover
            (fun u => discover_pipeline u (whRes u) (execFor u)) vs) := by
  have hnone : ∀ (name m : String)
      (exec : String → String → Except String StatementResult),
      discover_pipeline name (Except.error m) exec = Except.ok none := by
    intro name m exec
    rfl
  refine ⟨hnone, ?_, ?_⟩
  · intro whRes execFor v vs m hv
    simp only [collect_pipeline_ids, hv, hnone]
    cases collect_pipeline_ids
        (fun u => discover_pipeline u (whRes u) (execFor u)) vs <;> rfl
  · intro whRes execFor v vs m hv
    simp only [run_discover, hv, hnone]

theorem c3_amended_witness :
    collect_pipeline_ids
        (fun u => discover_pipeline u
          (if u = "cat.sch.v1" then Except.error resolutionErrorMsg
           else Except.ok "wh1")
          (fun _ _ => Except.ok ⟨some ⟨some ["pipelines/abc"]⟩⟩))
        ["cat.sch.v1", "cat.sch.v2"] =
      collect_pipeline_ids
        (fun u => discover_pipeline u
          (if u = "cat.sch.v1" then Except.error resolutionErrorMsg
           else Except.ok "wh1")
          (fun _ _ => Except.ok ⟨some ⟨some ["pipelines/abc"]⟩⟩))
        ["cat.sch.v2"] :=
  c3_amended_resolution_error_caught.2.1
    (fun u => if u = "cat.sch.v1" then Except.error resolutionErrorMsg
              else Except.ok "wh1")
    (fun _ _ _ => Except.ok ⟨some ⟨some ["pipelines/abc"]⟩⟩)
    "cat.sch.v1" ["cat.sch.v2"] resolutionErrorMsg (by simp)

/-- Claim C4: every exception raised by the remote `execute_statement`
call is caught by `discover_pipeline`, which returns `None` (treated as
"no pipeline found") and never re-raises; hence a discovery failure for
one view does not prevent the discovery or collection loop from
processing subsequent views in a multi-argument invocation. -/
theorem c4_execute_exception_caught :
    (∀ (name wid msg : String),
      discover_pipeline name (Except.ok wid) (fun _ _ => Except.error msg) =
        Except.ok none)
    ∧ (∀ (d : String → Except String (Option String)) (v : String)
        (vs : List String),
        d v = Except.ok none →
        collect_pipeline_ids d (v :: vs) = collect_pipeline_ids d vs)
    ∧ (∀ (d : String → Except String (Option String)) (v : String)
        (vs : List String),
        d v = Except.ok none →
        run_discover d (v :: vs) = run_discover d vs) := by
  refine ⟨?_, ?_, ?_⟩
  · intro name wid msg
    rfl
  · intro d v vs hv
    simp only [collect_pipeline_ids, hv]
    cases collect_pipeline_ids d vs <;> rfl
  · intro d v vs hv
    simp only [run_discover, hv]

theorem c4_witness :
    discover_pipeline "cat.sch.v1" (Except.ok "wh1")
        (fun _ _ => Except.error "PERMISSION_DENIED") = Except.ok none
    ∧ collect_pipeline_ids
        (fun u => if u = "cat.sch.v1" then Except.ok none
                  else Except.ok (some "abc"))
        ["cat.sch.v1", "cat.sch.v2"] =
      collect_pipeline_ids
        (fun u => if u = "cat.sch.v1" then Except.ok none
                  else Except.ok (some "abc"))
        ["cat.sch.v2"] :=
  ⟨c4_execute_exception_caught.1 "cat.sch.v1" "wh1" "PERMISSION_DENIED",
   c4_execute_exception_caught.2.1
     (fun u => if u = "cat.sch.v1" then Except.ok none
               else Except.ok (some "abc"))
     "cat.sch.v1" ["cat.sch.v2"] (by simp)⟩

/-- Claim C5: in `--refresh` mode, `main` runs discovery for each view in
order and collects exactly the non-`None` resolved pipeline identifiers in
that order; if at least one resolved it invokes refresh on the whole
collected batch and exits with status 0; if none resolved it prints
"No pipelines found to refresh." and exits with status 1. -/
theorem c5_refresh_mode :
    ∀ (whRes : String → Except String String)
      (execFor : String → String → String → Except String StatementResult)
      (su : String → Except String Unit) (views : List String),
      views ≠ [] →
      main (fun u => discover_pipeline u (whRes u) (execFor u)) su
          ("--refresh" :: views) =
        Except.ok
          (if (views.filterMap
                (fun u => discover_opt u (whRes u) (execFor u))).isEmpty then
            { discover_calls := views, printed_no_pipelines := true,
              exitCode := 1 }
          else
            { discover_calls := views,
              refresh_reports := refresh_pipelines su
                (views.filterMap
                  (fun u => discover_opt u (whRes u) (execFor u))),
              exitCode := 0 }) := by
  intro whRes execFor su views hne
  cases views with
  | nil => exact absurd rfl hne
  | cons v vs =>
    simp only [main, collect_eq_filterMap]
    rw [if_neg (show ¬ (("--refresh" : String) = "--discover") by decide)]
    exact (apply_ite Except.ok _ _ _).symm

theorem c5_witness :
    main (fun u => discover_pipeline u
          ((fun _ => Except.ok "wh1") u)
          ((fun _ _ _ => Except.ok
              (⟨some ⟨some ["pipelines/0148-aa"]⟩⟩ : StatementResult)) u))
        (fun _ => Except.ok ()) ("--refresh" :: ["cat.sch.v1"]) =
      Except.ok
        (if ((["cat.sch.v1"] : List String).filterMap
              (fun u => discover_opt u
                ((fun _ => Except.ok "wh1") u)
                ((fun _ _ _ => Except.ok
                    (⟨some ⟨some ["pipelines/0148-aa"]⟩⟩ : StatementResult)) u))).isEmpty then
          { discover_calls := ["cat.sch.v1"], printed_no_pipelines := true,
            exitCode := 1 }
        else
          { discover_calls := ["cat.sch.v1"],
            refresh_reports := refresh_pipelines (fun _ => Except.ok ())
              ((["cat.sch.v1"] : List String).filterMap
                (fun u => discover_opt u
                  ((fun _ => Except.ok "wh1") u)
                  ((fun _ _ _ => Except.ok
                      (⟨some ⟨some ["pipelines/0148-aa"]⟩⟩ : StatementResult)) u))),
            exitCode := 0 }) :=
  c5_refresh_mode (fun _ => Except.ok "wh1")
    (fun _ _ _ => Except.ok ⟨some ⟨some ["pipelines/0148-aa"]⟩⟩)
    (fun _ => Except.ok ()) ["cat.sch.v1"] (by simp)

/-- Claim C6: `refresh_pipelines` invokes the remote start-update action
once per identifier, in the given order (the report list carries exactly
the given ids in order), reporting success or failure per item; a failure
for one identifier is reported and does not abort or skip the calls for
subsequent identifiers; and the refresh outcomes never affect the process
exit code of `main`. -/
theorem c6_refresh_per_item :
    (∀ (su : String → Except String Unit) (pids : List String),
      (refresh_pipelines su pids).map reportId = pids)
    ∧ (∀ (su : String → Except String Unit) (p m : String)
        (rest : List String),
        su p = Except.error m →
        refresh_pipelines su (p :: rest) =
          RefreshReport.err p m :: refresh_pipelines su rest)
    ∧ (∀ (d : String → Except String (Option String))
        (su1 su2 : String → Except String Unit) (args : List String),
        Except.map MainResult.exitCode (main d su1 args) =
          Except.map MainResult.exitCode (main d su2 args)) := by
  refine ⟨?_, ?_, ?_⟩
  · intro su pids
    induction pids with
    | nil => rfl
    | cons p rest ih =>
      cases h : su p <;> simp [refresh_pipelines, h, reportId, ih]
  · intro su p m rest h
    simp only [refresh_pipelines, h]
  · intro d su1 su2 args
    cases args with
    | nil => rfl
    | cons mode rest =>
      simp only [main]
      by_cases h1 : mode = "--discover"
      · rw [if_pos h1, if_pos h1]
      · rw [if_neg h1, if_neg h1]
        by_cases h2 : mode = "--refresh"
        · rw [if_pos h2, if_pos h2]
          cases rest with
          | nil => rfl
          | cons v vs =>
            cases collect_pipeline_ids d (v :: vs) with
            | error e => rfl
            | ok pids =>
              by_cases he : pids.isEmpty = true
              · simp [he]
              · simp only [if_neg he]
                rfl
        · rw [if_neg h2, if_neg h2]
          rfl

theorem c6_witness :
    refresh_pipelines
        (fun p => if p = "p1" then Except.error "cluster unavailable"
                  else Except.ok ()) ("p1" :: ["p2"]) =
      RefreshReport.err "p1" "cluster unavailable" ::
        refresh_pipelines
          (fun p => if p = "p1" then Except.error "cluster unavailable"
                    else Except.ok ()) ["p2"] :=
  c6_refresh_per_item.2.1
    (fun p => if p = "p1" then Except.error "cluster unavailable"
              else Except.ok ())
    "p1" "cluster unavailable" ["p2"] (by simp)

/-- Claim C7: `_get_warehouse_id` raises the resolution `ValueError`
(whose message instructs the operator to set `DATABRICKS_WAREHOUSE_ID` or
`DATABRICKS_HTTP_PATH`) exactly when no environment override resolves and
the warehouse list call raises or returns an empty list; in every other
case it returns normally. -/
theorem c7_resolution_failure :
    ∀ (envW envH : Option String) (lr : Except String (List Warehouse)),
      (_get_warehouse_id envW envH lr = Except.error resolutionErrorMsg ↔
        (envTruthy envW = none ∧
         reSearchWarehouses ((envH.getD "").data) = none ∧
         ((∃ e, lr = Except.error e) ∨ lr = Except.ok [])))
      ∧ (∀ m, _get_warehouse_id envW envH lr = Except.error m →
          m = resolutionErrorMsg)
      ∧ pyContains "DATABRICKS_WAREHOUSE_ID" resolutionErrorMsg = true
      ∧ pyContains "DATABRICKS_HTTP_PATH" resolutionErrorMsg = true := by
  have herr : ∀ (envW envH : Option String) (lr : Except String (List Warehouse)),
      envTruthy envW = none →
      reSearchWarehouses ((envH.getD "").data) = none →
      warehouseFromList lr = none →
      _get_warehouse_id envW envH lr = Except.error resolutionErrorMsg := by
    intro envW envH lr h1 h2 h3
    simp [_get_warehouse_id, h1, h2, h3]
  intro envW envH lr
  refine ⟨?_, ?_, by decide, by decide⟩
  · constructor
    · intro h
      cases h1 : envTruthy envW with
      | some w => simp [_get_warehouse_id, h1] at h
      | none =>
        cases h2 : reSearchWarehouses ((envH.getD "").data) with
        | some wid => simp [_get_warehouse_id, h1, h2] at h
        | none =>
          refine ⟨rfl, rfl, ?_⟩
          cases lr with
          | error e => exact Or.inl ⟨e, rfl⟩
          | ok whs =>
            cases whs with
            | nil => exact Or.inr rfl
            | cons wh rest =>
              exfalso
              cases hf : (wh :: rest).find? isRunning with
              | some wh2 =>
                simp [_get_warehouse_id, h1, h2, warehouseFromList, hf] at h
              | none =>
                simp [_get_warehouse_id, h1, h2, warehouseFromList, hf] at h
    · rintro ⟨h1, h2, h3⟩
      cases h3 with
      | inl he =>
        obtain ⟨e, he⟩ := he
        subst he
        exact herr envW envH (Except.error e) h1 h2 rfl
      | inr he =>
        subst he
        exact herr envW envH (Except.ok []) h1 h2 rfl
  · intro m h
    cases h1 : envTruthy envW with
    | some w => simp [_get_warehouse_id, h1] at h
    | none =>
      cases h2 : reSearchWarehouses ((envH.getD "").data) with
      | some wid => simp [_get_warehouse_id, h1, h2] at h
      | none =>
        cases h3 : warehouseFromList lr with
        | some wid => simp [_get_warehouse_id, h1, h2, h3] at h
        | none =>
          simp only [_get_warehouse_id, h1, h2, h3, Except.error.injEq] at h
          exact h.symm

theorem c7_witness :
    _get_warehouse_id none (some "/sql/1.0/endpoints/no-match")
        (Except.ok []) = Except.error resolutionErrorMsg :=
  ((c7_resolution_failure none (some "/sql/1.0/endpoints/no-match")
      (Except.ok [])).1).mpr ⟨rfl, rfl, Or.inr rfl⟩

/-- Claim C8: invoked with zero arguments, `main` prints the usage/help
text and exits with status 1; invoked with `--discover` or `--refresh` as
the first argument but no following arguments, `main` prints an error line
and exits with status 1, performing no discovery and no refresh. -/
theorem c8_argument_errors :
    ∀ (d : String → Except String (Option String))
      (su : String → Except String Unit),
      main d su [] = Except.ok
        { printed_usage := true, printed_missing_arg := false,
          printed_no_pipelines := false, discover_calls := [],
          refresh_reports := [], exitCode := 1 }
      ∧ main d su ["--discover"] = Except.ok
        { printed_usage := false, printed_missing_arg := true,
          printed_no_pipelines := false, discover_calls := [],
          refresh_reports := [], exitCode := 1 }
      ∧ main d su ["--refresh"] = Except.ok
        { printed_usage := false, printed_missing_arg := true,
          printed_no_pipelines := false, discover_calls := [],
          refresh_reports := [], exitCode := 1 } := by
  intro d su
  refine ⟨rfl, ?_, ?_⟩
  · simp [main]
  · simp [main]

/-- Claim C9: an empty `DATABRICKS_WAREHOUSE_ID` is treated exactly as if
it were unset — resolution falls through to the HTTP-path extraction and
then to warehouse listing instead of returning the empty string — and the
environment branch fires (returning the value immediately) exactly for
non-empty values, so every identifier returned from that branch is
non-empty. -/
theorem c9_empty_env_var_as_unset :
    (∀ (envH : Option String) (lr : Except String (List Warehouse)),
      _get_warehouse_id (some "") envH lr = _get_warehouse_id none envH lr)
    ∧ (∀ (v : String) (envH : Option String)
        (lr : Except String (List Warehouse)),
        v ≠ "" → _get_warehouse_id (some v) envH lr = Except.ok v) := by
  constructor
  · intro envH lr
    simp [_get_warehouse_id, envTruthy]
  · intro v envH lr hv
    simp [_get_warehouse_id, envTruthy, hv]

theorem c9_witness :
    _get_warehouse_id (some "") (some "/sql/1.0/warehouses/abc123")
        (Except.error "boom") =
      _get_warehouse_id none (some "/sql/1.0/warehouses/abc123")
        (Except.error "boom")
    ∧ _get_warehouse_id (some "w-42") none (Except.error "boom") =
        Except.ok "w-42" :=
  ⟨c9_empty_env_var_as_unset.1 (some "/sql/1.0/warehouses/abc123")
      (Except.error "boom"),
   c9_empty_env_var_as_unset.2 "w-42" none (Except.error "boom") (by decide)⟩

/-- Claim C10: a row whose stringified form contains `pipelines/` but in
which no occurrence of `pipelines/` is immediately followed by an
`[a-f0-9-]` character (so the regex finds no token at any position) does
not terminate the scan: `discover_scan` continues with later rows, and a
later row with a well-formed `pipelines/<token>` still yields that
identifier. -/
theorem c10_malformed_row_does_not_stop_scan :
    (∀ (bad : String) (rows : List String),
      pyContains "pipelines/" bad = true →
      specSearchTok pipelinesLit isHexHyphen bad.data = none →
      discover_scan (bad :: rows) = discover_scan rows)
    ∧ (∀ (bad good : String) (rows : List String) (p : String),
        pyContains "pipelines/" bad = true →
        specSearchTok pipelinesLit isHexHyphen bad.data = none →
        reSearchPipeline good.data = some p →
        discover_scan (bad :: good :: rows) = some p) := by
  have hskip : ∀ (bad : String) (rows : List String),
      pyContains "pipelines/" bad = true →
      specSearchTok pipelinesLit isHexHyphen bad.data = none →
      discover_scan (bad :: rows) = discover_scan rows := by
    intro bad rows hc hs
    have hnone : reSearchPipeline bad.data = none := by
      rw [reSearchPipeline, reSearchTok_eq_spec]
      exact hs
    simp [discover_scan, hc, hnone]
  refine ⟨hskip, ?_⟩
  intro bad good rows p hc hs hgood
  rw [hskip bad (good :: rows) hc hs]
  have hcg : pyContains "pipelines/" good = true := by
    by_contra hng
    have : reSearchPipeline good.data = none :=
      reSearchTok_eq_none_of_not_contains pipelinesLit isHexHyphen good.data
        (by simpa [pyContains, pipelinesLit] using hng)
    rw [this] at hgood
    cases hgood
  simp [discover_scan, hcg, hgood]

theorem c10_witness :
    discover_scan ["see pipelines/XYZ here", "https://host/pipelines/0148-aa?x=1"] =
      discover_scan ["https://host/pipelines/0148-aa?x=1"]
    ∧ discover_scan ["see pipelines/XYZ here", "https://host/pipelines/0148-aa?x=1", "tail"] =
        some "0148-aa" :=
  ⟨c10_malformed_row_does_not_stop_scan.1 "see pipelines/XYZ here"
      ["https://host/pipelines/0148-aa?x=1"] (by decide) (by decide),
   c10_malformed_row_does_not_stop_scan.2 "see pipelines/XYZ here"
      "https://host/pipelines/0148-aa?x=1" ["tail"] "0148-aa"
      (by decide) (by decide) (by decide)⟩

end RefreshMetricViews
